import Mathlib

/-!
Verification of the audience-matching and reel-ranking engine of the
sns-ai-agent repository.

The definitions below are shallow embeddings of the Python source:
* `analyze_age`, `analyze_gender` embed the age/gender inference of
  `InstagramScraper._analyze_comments` (backend/ig_scraper.py, lines 562-655);
* `engagement_rate`, `extract_views_per_follower`, `gate_views_per_follower`
  and `rankAndFilter` embed the engagement scoring and the filter/sort/truncate
  path of `search_reels_by_keyword` (backend/ig_scraper.py, lines 232-267 and
  444-455);
* `match_score` and `get_reels_by_audience` embed the audience matching of
  `backend/app/database.py`, lines 184-215.

Python's stable `list.sort(key=k, reverse=True)` is modelled by
`List.insertionSort` with the relation "key of the left argument is at least
the key of the right argument": any two stable sorts under the same key agree,
and `List.insertionSort` with such a total preorder is stable.
Python `float` division is modelled by exact rational arithmetic.
-/

/-- Character-list prefix test (needle, haystack), used to model Python's
substring operator. -/
def prefAt : List Char → List Char → Bool
  | [], _ => true
  | _ :: _, [] => false
  | a :: as, b :: bs => a == b && prefAt as bs

/-- `containsSub needle hay` models Python `needle in hay` on strings:
`needle` occurs contiguously somewhere in `hay`. -/
def containsSub (needle : List Char) : List Char → Bool
  | [] => needle.isEmpty
  | c :: rest => prefAt needle (c :: rest) || containsSub needle rest

/-- Substring occurrence on `String` (models Python `needle in haystack`). -/
def strContains (haystack needle : String) : Bool :=
  containsSub needle.data haystack.data

/-- Models Python `str.lower()` (ASCII case folding; the marker tables and all
inputs relevant here contain no non-ASCII cased characters). -/
def lowerStr (s : String) : String := ⟨s.data.map Char.toLower⟩

/-- Models Python `' '.join(comments)`. -/
def joinSpace : List String → String
  | [] => ""
  | [s] => s
  | s :: rest => s ++ " " ++ joinSpace rest

/-- `all_text = ' '.join(comments).lower()` (ig_scraper.py, line 580). -/
def comment_blob (comments : List String) : String := lowerStr (joinSpace comments)

/-- The `age_patterns` table of `_analyze_comments` (ig_scraper.py,
lines 582-588), in declaration order. -/
def age_patterns : List (String × List String) :=
  [("13-17", ["学生", "高校", "中学", "jk", "宿題", "授業"]),
   ("18-24", ["大学", "大学生", "就活", "バイト", "卒論", "研究室"]),
   ("25-34", ["社会人", "転職", "結婚", "育児", "仕事", "ママ", "子育て"]),
   ("35-44", ["子供", "ママ", "パパ", "家族", "住宅", "ローン", "中年"]),
   ("45+", ["定年", "老後", "年金", "孫", "退職", "シニア"])]

/-- The `gender_patterns` table of `_analyze_comments` (ig_scraper.py,
lines 601-604), in declaration order. -/
def gender_patterns : List (String × List String) :=
  [("female", ["女子", "女性", "ママ", "彼氏", "メイク", "コスメ", "化粧"]),
   ("male", ["男子", "男性", "パパ", "彼女", "筋トレ", "ゲーム"])]

/-- Per-label scores: for each label, the number of distinct markers of that
label occurring in the blob (`if keyword in all_text: score += 1` per marker,
ig_scraper.py lines 590-594 and 606-610). -/
def patternScores (patterns : List (String × List String)) (blob : String) :
    List (String × Nat) :=
  patterns.map (fun p => (p.1, p.2.countP (fun m => strContains blob m)))

/-- Models Python `max(items, key=lambda x: x[1])`: the first pair attaining
the maximal score (replacement only on a strictly greater score). -/
def pickMax (p : String × Nat) (l : List (String × Nat)) : String × Nat :=
  l.foldl (fun best q => if best.2 < q.2 then q else best) p

/-- First argmax of a score list, `none` on the empty list. -/
def argmaxFirst : List (String × Nat) → Option (String × Nat)
  | [] => none
  | p :: ps => some (pickMax p ps)

/-- Age inference of `_analyze_comments` (ig_scraper.py, lines 572-599):
empty comment list returns "unknown" via the early guard; otherwise the first
bracket attaining the maximal marker count if that count is positive, else the
default "18-34". -/
def analyze_age (comments : List String) : String :=
  if comments.isEmpty then "unknown"
  else
    match argmaxFirst (patternScores age_patterns (comment_blob comments)) with
    | some best => if 0 < best.2 then best.1 else "18-34"
    | none => "18-34"

/-- Gender inference of `_analyze_comments` (ig_scraper.py, lines 572-578 and
601-615): empty comment list returns "unknown"; otherwise the first gender
attaining the maximal marker count if that count is positive, else "unknown". -/
def analyze_gender (comments : List String) : String :=
  if comments.isEmpty then "unknown"
  else
    match argmaxFirst (patternScores gender_patterns (comment_blob comments)) with
    | some best => if 0 < best.2 then best.1 else "unknown"
    | none => "unknown"

/-- A scraped reel as consumed by the ranking path of
`search_reels_by_keyword`: raw engagement counts plus the follower count the
code reads (`ownerFollowersCount` in `_extract_reel_data`). -/
structure ReelData where
  like_count : Nat
  comment_count : Nat
  view_count : Nat
  follower_count : Nat
deriving DecidableEq, Repr

/-- `engagement_rate` as computed in `_extract_reel_data` (ig_scraper.py,
lines 444-449) and, for records with nonzero views, in
`search_reels_by_keyword` (line 245). -/
def engagement_rate (r : ReelData) : ℚ :=
  if 0 < r.view_count then
    ((r.like_count : ℚ) + r.comment_count) / r.view_count * 100
  else 0

/-- The `views_followers_ratio` field computed and stored by
`_extract_reel_data` (ig_scraper.py, lines 451-455): `view/followers` when
followers are positive, `0` otherwise. -/
def extract_views_per_follower (r : ReelData) : ℚ :=
  if 0 < r.follower_count then (r.view_count : ℚ) / r.follower_count else 0

/-- The `views_followers_ratio` recomputed at the admission gate of
`search_reels_by_keyword` (ig_scraper.py, line 248):
`view_count / max(1, reel_data.get('follower_count', 1000))`. No record
reaching this line carries the dict key `follower_count` — `_extract_reel_data`
stores the follower count under `ownerFollowersCount` (line 440) and nothing
else produces these dicts — so the `get` always yields the default 1000 and
the gate divides every record's view count by `max(1, 1000) = 1000`,
independent of the record's actual follower count. -/
def gate_views_per_follower (r : ReelData) : ℚ :=
  (r.view_count : ℚ) / (max 1 1000 : Nat)

/-- The admission predicate of `search_reels_by_keyword` (ig_scraper.py,
lines 244-251): the truthiness gate `if like_count and view_count:` followed by
the two threshold comparisons (the source hardcodes the ratio threshold to 3;
it is a parameter here, instantiated by the caller; the ratio's denominator is
the constant 1000, see `gate_views_per_follower`). -/
def keepReel (minEng minRatio : ℚ) (r : ReelData) : Bool :=
  r.like_count != 0 && r.view_count != 0 &&
    decide (minEng ≤ engagement_rate r) &&
    decide (minRatio ≤ gate_views_per_follower r)

/-- Descending engagement order: `scoreGe a b` when `a`'s engagement rate is
at least `b`'s. -/
def scoreGe (a b : ReelData) : Prop := engagement_rate b ≤ engagement_rate a

instance : DecidableRel scoreGe :=
  fun a b => inferInstanceAs (Decidable (engagement_rate b ≤ engagement_rate a))

instance : IsTotal ReelData scoreGe :=
  ⟨fun a b => le_total (engagement_rate b) (engagement_rate a)⟩

instance : IsTrans ReelData scoreGe :=
  ⟨fun _ _ _ hab hbc => le_trans hbc hab⟩

/-- The rank-and-filter path of `search_reels_by_keyword` (ig_scraper.py,
lines 234-261): keep records passing `keepReel`, sort descending by
`engagement_rate` (Python's stable sort), truncate to `topN`. -/
def rankAndFilter (records : List ReelData) (minEng minRatio : ℚ) (topN : Nat) :
    List ReelData :=
  ((records.filter (keepReel minEng minRatio)).insertionSort scoreGe).take topN

/-- A JSON value as stored in a persisted audience profile: the profile keys
map either to a string ("age", "gender") or to a list of strings
("interests", "keywords"). -/
inductive JVal where
  | jstr : String → JVal
  | jarr : List String → JVal
deriving DecidableEq, Repr

/-- A parsed `audience_json` object: an association list with the first
binding of a key authoritative (Python dict keys are unique). -/
abbrev AudienceJson := List (String × JVal)

/-- Python `audience[key]` guarded by `key in audience`. -/
def jlookup (a : AudienceJson) (k : String) : Option JVal :=
  match a.find? (fun kv => kv.1 == k) with
  | some kv => some kv.2
  | none => none

/-- The match-score loop of `get_reels_by_audience` (database.py,
lines 202-206): the count of target entries whose key is present in the
profile with a value equal to the target value (Python `==`; a list-valued
profile entry never equals a target string). -/
def match_score (target : List (String × String)) (audience : AudienceJson) : Nat :=
  target.countP (fun kv => jlookup audience kv.1 == some (JVal.jstr kv.2))

/-- Modelled from the spec: the match score as claim C1 describes it, with the
membership rule for the `interest` key ("match succeeds if the target value
appears anywhere in the record's `interests` list"); every other key matches by
exact string equality. The source has no such membership check; this definition
exists only to be compared with `match_score`. -/
def match_score_spec (target : List (String × String)) (audience : AudienceJson) : Nat :=
  target.countP (fun kv =>
    if kv.1 == "interest" then
      match jlookup audience "interests" with
      | some (JVal.jarr l) => l.contains kv.2
      | _ => false
    else jlookup audience kv.1 == some (JVal.jstr kv.2))

/-- A row of the `reels` table as consumed by `get_reels_by_audience`:
engagement counts plus the parsed audience profile (`none` models both a NULL
`audience_json` — already excluded by the SQL filter — and a JSON parse
failure, skipped by the `except: continue`). -/
structure Reel where
  reel_id : String
  like_count : Nat
  comment_count : Nat
  view_count : Nat
  audience : Option AudienceJson
deriving DecidableEq, Repr

/-- Descending match-score order on (reel, score) pairs. -/
def msGe (p q : Reel × Nat) : Prop := q.2 ≤ p.2

instance : DecidableRel msGe :=
  fun p q => inferInstanceAs (Decidable (q.2 ≤ p.2))

instance : IsTotal (Reel × Nat) msGe := ⟨fun p q => Nat.le_total q.2 p.2⟩

instance : IsTrans (Reel × Nat) msGe := ⟨fun _ _ _ hab hbc => le_trans hbc hab⟩

/-- `get_reels_by_audience` (database.py, lines 184-215): the pool is the SQL
result (rows with a non-NULL profile, most recently scraped first); records
with a parseable profile and a positive match score are kept with their score,
sorted descending by score (Python's stable sort), truncated to `limit`
(the source signature defaults `limit` to 10). -/
def get_reels_by_audience (target : List (String × String)) (pool : List Reel)
    (limit : Nat) : List (Reel × Nat) :=
  let matched := pool.filterMap (fun r =>
    match r.audience with
    | none => none
    | some a =>
      let ms := match_score target a
      if 0 < ms then some (r, ms) else none)
  (matched.insertionSort msGe).take limit

/-! ### Helper lemmas on the argmax fold and on sort/filter/take -/

theorem pickMax_eq_or_mem (p : String × Nat) (l : List (String × Nat)) :
    pickMax p l = p ∨ pickMax p l ∈ l := by
  induction l generalizing p with
  | nil => exact Or.inl rfl
  | cons q t ih =>
    have hstep : pickMax p (q :: t) = pickMax (if p.2 < q.2 then q else p) t := rfl
    rw [hstep]
    rcases ih (if p.2 < q.2 then q else p) with h | h
    · rw [h]
      by_cases hpq : p.2 < q.2
      · rw [if_pos hpq]; exact Or.inr (List.mem_cons_self q t)
      · rw [if_neg hpq]; exact Or.inl rfl
    · exact Or.inr (List.mem_cons_of_mem q h)

theorem le_pickMax (p : String × Nat) (l : List (String × Nat)) :
    ∀ q ∈ p :: l, q.2 ≤ (pickMax p l).2 := by
  induction l generalizing p with
  | nil =>
    intro q hq
    rw [List.mem_singleton] at hq
    exact hq ▸ le_rfl
  | cons b t ih =>
    intro q hq
    have hstep : pickMax p (b :: t) = pickMax (if p.2 < b.2 then b else p) t := rfl
    rw [hstep]
    have hhead : q.2 ≤ (if p.2 < b.2 then b else p).2 →
        q.2 ≤ (pickMax (if p.2 < b.2 then b else p) t).2 :=
      fun h => le_trans h (ih _ _ (List.mem_cons_self _ _))
    rcases List.mem_cons.mp hq with rfl | hq2
    · apply hhead
      by_cases hpb : q.2 < b.2
      · rw [if_pos hpb]; exact le_of_lt hpb
      · rw [if_neg hpb]
    · rcases List.mem_cons.mp hq2 with rfl | hq3
      · apply hhead
        by_cases hpb : p.2 < q.2
        · rw [if_pos hpb]
        · rw [if_neg hpb]; exact le_of_not_lt hpb
      · exact ih _ _ (List.mem_cons_of_mem _ hq3)

theorem argmaxFirst_patternScores (patterns : List (String × List String))
    (hp : patterns ≠ []) (blob : String) :
    ∃ best, argmaxFirst (patternScores patterns blob) = some best ∧
      best ∈ patternScores patterns blob ∧
      ∀ q ∈ patternScores patterns blob, q.2 ≤ best.2 := by
  cases patterns with
  | nil => exact absurd rfl hp
  | cons a t =>
    have hcons : patternScores (a :: t) blob =
        (a.1, a.2.countP (fun m => strContains blob m)) :: patternScores t blob := rfl
    rw [hcons]
    refine ⟨pickMax _ (patternScores t blob), rfl, ?_, le_pickMax _ _⟩
    rcases pickMax_eq_or_mem (a.1, a.2.countP (fun m => strContains blob m))
        (patternScores t blob) with h | h
    · rw [h]; exact List.mem_cons_self _ _
    · exact List.mem_cons_of_mem _ h

theorem take_sort_filter_idem {α : Type} (r : α → α → Prop) [DecidableRel r]
    [IsTotal α r] [IsTrans α r] (p : α → Bool) (n : Nat) (l : List α) :
    (((((l.filter p).insertionSort r).take n).filter p).insertionSort r).take n
      = ((l.filter p).insertionSort r).take n := by
  have hfil : (((l.filter p).insertionSort r).take n).filter p
      = ((l.filter p).insertionSort r).take n := by
    apply List.filter_eq_self.mpr
    intro a ha
    exact List.of_mem_filter
      ((List.perm_insertionSort r (l.filter p)).mem_iff.mp ((List.take_sublist _ _).subset ha))
  have hsort : List.Sorted r (((l.filter p).insertionSort r).take n) :=
    List.Pairwise.sublist (List.take_sublist _ _) (List.sorted_insertionSort r (l.filter p))
  rw [hfil, hsort.insertionSort_eq, List.take_take]
  simp

/-! ### Concrete records used in scenario theorems -/

/-- Scenario record A of claim C2: likes 10, comments 2, views 100, age 18-24. -/
def reelA : Reel := ⟨"A", 10, 2, 100, some [("age", JVal.jstr "18-24")]⟩

/-- Scenario record B of claim C2: likes 500, comments 100, views 2000, age 18-24. -/
def reelB : Reel := ⟨"B", 500, 100, 2000, some [("age", JVal.jstr "18-24")]⟩

/-- A profile whose `interests` list contains "beauty". -/
def interestsProfile : AudienceJson :=
  [("age", JVal.jstr "18-34"), ("gender", JVal.jstr "female"),
   ("interests", JVal.jarr ["beauty", "fashion"]), ("keywords", JVal.jarr [])]

/-- A record carrying `interestsProfile`. -/
def reelC : Reel := ⟨"C", 10, 2, 100, some interestsProfile⟩

/-! ### Claim C3: age inference -/

/-- C3 counterexample: the comment "学生 大学" gives the brackets 13-17 and
18-24 one distinct matching marker each (a tie), yet `analyze_age` returns
"13-17" — the first tied bracket in table order — not the default "18-34"
the claim requires on a tie. -/
theorem analyze_age_tie_cex :
    patternScores age_patterns (comment_blob ["学生 大学"]) =
      [("13-17", 1), ("18-24", 1), ("25-34", 0), ("35-44", 0), ("45+", 0)]
    ∧ analyze_age ["学生 大学"] = "13-17"
    ∧ "13-17" ≠ "18-34" := by
  exact ⟨by decide, by decide, by decide⟩

/-- C3 amended: for a non-empty comment list, age inference counts distinct
markers per bracket over the lower-cased blob; if all bracket counts are zero
the default "18-34" is returned; otherwise the returned bracket attains the
maximal count (in particular a bracket with the strictly highest count wins);
on a tie the earliest tied bracket in table-declaration order is returned, not
the default (see the counterexample); an empty comment list returns
"unknown". -/
theorem analyze_age_amended (comments : List String) :
    (comments = [] → analyze_age comments = "unknown")
    ∧ (comments ≠ [] →
        ((∀ p ∈ patternScores age_patterns (comment_blob comments), p.2 = 0) →
          analyze_age comments = "18-34")
        ∧ ∀ p ∈ patternScores age_patterns (comment_blob comments), 0 < p.2 →
          ∃ q ∈ patternScores age_patterns (comment_blob comments),
            q.1 = analyze_age comments ∧ p.2 ≤ q.2) := by
  constructor
  · rintro rfl; rfl
  · intro hne
    obtain ⟨best, hb, hmem, hmax⟩ :=
      argmaxFirst_patternScores age_patterns (by decide) (comment_blob comments)
    have hE : comments.isEmpty = false := by
      cases comments with
      | nil => exact absurd rfl hne
      | cons a t => rfl
    have hunfold : analyze_age comments = if 0 < best.2 then best.1 else "18-34" := by
      simp [analyze_age, hE, hb]
    constructor
    · intro hz
      have hz2 : best.2 = 0 := hz best hmem
      rw [hunfold, hz2]
      simp
    · intro p hp hpos
      have hbp : 0 < best.2 := lt_of_lt_of_le hpos (hmax p hp)
      exact ⟨best, hmem, by rw [hunfold, if_pos hbp], hmax p hp⟩

/-- Witness for `analyze_age_amended` at the comment "定年 老後": the 45+
bracket has two matching markers and the returned bracket attains that
score. -/
theorem analyze_age_amended_witness :
    (["定年 老後"] : List String) ≠ [] ∧
    ∃ q ∈ patternScores age_patterns (comment_blob ["定年 老後"]),
      q.1 = analyze_age ["定年 老後"] ∧ 2 ≤ q.2 := by
  have h := (analyze_age_amended ["定年 老後"]).2 (by decide)
  exact ⟨by decide, h.2 ("45+", 2) (by decide) (by decide)⟩

/-! ### Claim C4: gender inference -/

/-- C4 counterexample: the comment "女子 男子" gives both gender tables one
distinct matching marker each (a tie with positive counts), yet
`analyze_gender` returns "female" — the first table in declaration order —
not "unknown" as the claim requires on a tie. -/
theorem analyze_gender_tie_cex :
    patternScores gender_patterns (comment_blob ["女子 男子"]) =
      [("female", 1), ("male", 1)]
    ∧ analyze_gender ["女子 男子"] = "female"
    ∧ "female" ≠ "unknown" := by
  exact ⟨by decide, by decide, by decide⟩

/-- C4 amended: gender inference scores the male and female marker tables by
count of distinct matching markers; "unknown" is returned when both counts are
zero (and for an empty comment list); when some count is positive the returned
gender attains the maximal count (the strictly highest count wins), and on a
positive tie the first table in declaration order ("female") is returned
rather than "unknown" (see the counterexample). -/
theorem analyze_gender_amended (comments : List String) :
    (comments = [] → analyze_gender comments = "unknown")
    ∧ (comments ≠ [] →
        ((∀ p ∈ patternScores gender_patterns (comment_blob comments), p.2 = 0) →
          analyze_gender comments = "unknown")
        ∧ ∀ p ∈ patternScores gender_patterns (comment_blob comments), 0 < p.2 →
          ∃ q ∈ patternScores gender_patterns (comment_blob comments),
            q.1 = analyze_gender comments ∧ p.2 ≤ q.2) := by
  constructor
  · rintro rfl; rfl
  · intro hne
    obtain ⟨best, hb, hmem, hmax⟩ :=
      argmaxFirst_patternScores gender_patterns (by decide) (comment_blob comments)
    have hE : comments.isEmpty = false := by
      cases comments with
      | nil => exact absurd rfl hne
      | cons a t => rfl
    have hunfold : analyze_gender comments = if 0 < best.2 then best.1 else "unknown" := by
      simp [analyze_gender, hE, hb]
    constructor
    · intro hz
      have hz2 : best.2 = 0 := hz best hmem
      rw [hunfold, hz2]
      simp
    · intro p hp hpos
      have hbp : 0 < best.2 := lt_of_lt_of_le hpos (hmax p hp)
      exact ⟨best, hmem, by rw [hunfold, if_pos hbp], hmax p hp⟩

/-- Witness for `analyze_gender_amended` at the comment "メイク コスメ": the
female table has two matching markers and the returned gender attains that
score. -/
theorem analyze_gender_amended_witness :
    (["メイク コスメ"] : List String) ≠ [] ∧
    ∃ q ∈ patternScores gender_patterns (comment_blob ["メイク コスメ"]),
      q.1 = analyze_gender ["メイク コスメ"] ∧ 2 ≤ q.2 := by
  have h := (analyze_gender_amended ["メイク コスメ"]).2 (by decide)
  exact ⟨by decide, h.2 ("female", 2) (by decide) (by decide)⟩

/-! ### Claim C5: engagement score -/

/-- C5: `engagement_rate` is `(likes + comments) / views * 100` when
`view_count > 0` and exactly `0` when `view_count = 0`, for all like and
comment counts (the guarded branch never divides by the zero view count); the
record with likes 100, comments 50, views 1000 scores 15. -/
theorem engagement_rate_spec :
    (∀ r : ReelData, r.view_count = 0 → engagement_rate r = 0)
    ∧ (∀ r : ReelData, 0 < r.view_count →
        engagement_rate r = ((r.like_count : ℚ) + r.comment_count) / r.view_count * 100)
    ∧ engagement_rate ⟨100, 50, 1000, 1000⟩ = 15 := by
  refine ⟨?_, ?_, by norm_num [engagement_rate]⟩
  · intro r h
    simp [engagement_rate, h]
  · intro r h
    simp [engagement_rate, h]

/-- Witness for `engagement_rate_spec`: zero views give score 0 for nonzero
likes and comments; a record with likes 10, comments 5, views 50 scores 30. -/
theorem engagement_rate_spec_witness :
    engagement_rate ⟨7, 3, 0, 5⟩ = 0 ∧ engagement_rate ⟨10, 5, 50, 5⟩ = 30 := by
  constructor
  · exact engagement_rate_spec.1 ⟨7, 3, 0, 5⟩ rfl
  · have h := engagement_rate_spec.2.1 ⟨10, 5, 50, 5⟩ (by norm_num)
    rw [h]; norm_num

/-! ### Claim C6: rank and filter -/

/-- C6 counterexample: a record with zero likes, 50 comments, 1000 views and
100 followers satisfies both thresholds at 0 — its engagement formula value is
5, the ratio of the claimed formula `view / max(1, followers)` is 10, and the
gate ratio actually computed (`view / 1000`) is 1 — yet `rankAndFilter`
excludes it: the truthiness gate `if like_count and view_count:` drops any
record with `like_count == 0` before the threshold comparison, so the kept set
is not "exactly the records with score >= minEngagementPercent and ratio >=
minViewsFollowersRatio". -/
theorem rankAndFilter_zero_like_cex :
    (0 : ℚ) ≤ engagement_rate ⟨0, 50, 1000, 100⟩
    ∧ (0 : ℚ) ≤ ((⟨0, 50, 1000, 100⟩ : ReelData).view_count : ℚ)
        / (max 1 (⟨0, 50, 1000, 100⟩ : ReelData).follower_count : Nat)
    ∧ (0 : ℚ) ≤ gate_views_per_follower ⟨0, 50, 1000, 100⟩
    ∧ rankAndFilter [⟨0, 50, 1000, 100⟩] 0 0 10 = [] := by
  refine ⟨by norm_num [engagement_rate], by positivity, ?_, by decide⟩
  rw [gate_views_per_follower]
  positivity

/-- C6 amended: `rankAndFilter` keeps exactly the records with nonzero
`like_count`, nonzero `view_count`, score at least `minEng` and gate ratio
`view_count / 1000` at least `minRatio` — the record's follower count is not
consulted here, since the gate reads the never-present dict key
`follower_count` and so always divides by the default 1000; it sorts the kept
records descending by score (stable) and truncates to `topN`; when nothing
passes (and in general when at most `topN` records pass) the output is a
permutation of the kept set — in particular empty, not an error, when the
kept set is empty. -/
theorem rankAndFilter_amended (records : List ReelData) (minEng minRatio : ℚ)
    (topN : Nat) :
    (∀ r ∈ rankAndFilter records minEng minRatio topN,
        r.like_count ≠ 0 ∧ r.view_count ≠ 0 ∧
        minEng ≤ engagement_rate r ∧ minRatio ≤ (r.view_count : ℚ) / 1000)
    ∧ List.Sorted scoreGe (rankAndFilter records minEng minRatio topN)
    ∧ (rankAndFilter records minEng minRatio topN).length ≤ topN
    ∧ ((records.filter (keepReel minEng minRatio)).length ≤ topN →
        List.Perm (rankAndFilter records minEng minRatio topN)
          (records.filter (keepReel minEng minRatio))) := by
  refine ⟨?_, ?_, ?_, ?_⟩
  · intro r hr
    have h2 : r ∈ records.filter (keepReel minEng minRatio) :=
      (List.perm_insertionSort scoreGe _).mem_iff.mp ((List.take_sublist _ _).subset hr)
    have h3 := List.of_mem_filter h2
    simp only [keepReel, Bool.and_eq_true, bne_iff_ne, ne_eq, decide_eq_true_eq] at h3
    have hg : gate_views_per_follower r = (r.view_count : ℚ) / 1000 := by
      norm_num [gate_views_per_follower]
    exact ⟨h3.1.1.1, h3.1.1.2, h3.1.2, hg ▸ h3.2⟩
  · exact List.Pairwise.sublist (List.take_sublist _ _)
      (List.sorted_insertionSort scoreGe _)
  · rw [rankAndFilter, List.length_take]
    exact Nat.min_le_left _ _
  · intro hlen
    have hlen2 : ((records.filter (keepReel minEng minRatio)).insertionSort scoreGe).length
        ≤ topN := by
      rw [List.length_insertionSort]; exact hlen
    rw [rankAndFilter, List.take_of_length_le hlen2]
    exact List.perm_insertionSort scoreGe _

/-- Witness for `rankAndFilter_amended`: a passing record with likes 10,
comments 2, views 100, followers 10 at thresholds 0, 0 and topN 10. -/
theorem rankAndFilter_amended_witness :
    ((⟨10, 2, 100, 10⟩ : ReelData).like_count ≠ 0
      ∧ (⟨10, 2, 100, 10⟩ : ReelData).view_count ≠ 0
      ∧ (0 : ℚ) ≤ engagement_rate ⟨10, 2, 100, 10⟩
      ∧ (0 : ℚ) ≤ ((⟨10, 2, 100, 10⟩ : ReelData).view_count : ℚ) / 1000)
    ∧ List.Perm (rankAndFilter [⟨10, 2, 100, 10⟩] 0 0 10)
        (List.filter (keepReel 0 0) [⟨10, 2, 100, 10⟩]) := by
  have h := rankAndFilter_amended [⟨10, 2, 100, 10⟩] 0 0 10
  have hout : rankAndFilter [⟨10, 2, 100, 10⟩] 0 0 10 = [⟨10, 2, 100, 10⟩] := by
    norm_num [rankAndFilter, keepReel, engagement_rate, gate_views_per_follower,
      List.insertionSort]
  refine ⟨h.1 ⟨10, 2, 100, 10⟩ ?_, h.2.2.2 ?_⟩
  · rw [hout]; exact List.mem_cons_self _ _
  · have : List.filter (keepReel 0 0) [(⟨10, 2, 100, 10⟩ : ReelData)]
        = [⟨10, 2, 100, 10⟩] := by
      norm_num [keepReel, engagement_rate, gate_views_per_follower]
    rw [this]
    norm_num

/-! ### Claim C7: views-to-followers ratio -/

/-- C7 counterexample: at `follower_count = 0` the `views_followers_ratio`
computed and stored by `_extract_reel_data` is 0, not the record's view count
(here 5) as the claimed formula `viewCount / max(1, followerCount)` gives; and
the ratio recomputed at the admission gate reads a dict key the records never
carry and so always divides by the default 1000: for a record with 1000 views
and 500 followers it yields 1, not the 1000 / max(1, 500) = 2 of the claimed
formula. -/
theorem views_per_follower_cex :
    extract_views_per_follower ⟨0, 0, 5, 0⟩ = 0
    ∧ ((⟨0, 0, 5, 0⟩ : ReelData).view_count : ℚ) = 5
    ∧ (0 : ℚ) ≠ 5
    ∧ gate_views_per_follower ⟨0, 0, 1000, 500⟩ = 1
    ∧ ((⟨0, 0, 1000, 500⟩ : ReelData).view_count : ℚ)
        / (max 1 (⟨0, 0, 1000, 500⟩ : ReelData).follower_count : Nat) = 2
    ∧ (1 : ℚ) ≠ 2 := by
  refine ⟨by norm_num [extract_views_per_follower], by norm_num, by norm_num,
    by norm_num [gate_views_per_follower], ?_, by norm_num⟩
  have h1 : (max 1 (⟨0, 0, 1000, 500⟩ : ReelData).follower_count : Nat) = 500 :=
    Nat.max_eq_right (by norm_num)
  rw [h1]
  norm_num

/-- C7 amended: the ratio recomputed at the admission gate of
`search_reels_by_keyword` reads the dict key `follower_count`, which no record
reaching it carries, so it always divides by the default: the gate ratio is
`viewCount / 1000` for every record — defined for every follower count, but
independent of it (and not `viewCount` at `followerCount = 0`); the ratio
computed and stored by `_extract_reel_data` uses the record's actual follower
count: `viewCount / followerCount` when `followerCount > 0` and 0 — not
`viewCount` — when `followerCount = 0`. -/
theorem views_per_follower_amended :
    (∀ r : ReelData, gate_views_per_follower r = (r.view_count : ℚ) / 1000)
    ∧ (∀ r : ReelData, r.follower_count = 0 → extract_views_per_follower r = 0)
    ∧ (∀ r : ReelData, 0 < r.follower_count →
        extract_views_per_follower r = (r.view_count : ℚ) / (r.follower_count : ℚ)) := by
  refine ⟨?_, ?_, ?_⟩
  · intro r
    norm_num [gate_views_per_follower]
  · intro r h
    simp [extract_views_per_follower, h]
  · intro r h
    simp [extract_views_per_follower, h]

/-- Witness for `views_per_follower_amended`: the gate ratio of a 1000-view
record with 500 followers is its view count over 1000; the stored ratio is 0
at zero followers and 3 at views 6, followers 2. -/
theorem views_per_follower_amended_witness :
    gate_views_per_follower ⟨0, 0, 1000, 500⟩
      = (((⟨0, 0, 1000, 500⟩ : ReelData).view_count : ℚ)) / 1000
    ∧ extract_views_per_follower ⟨0, 0, 5, 0⟩ = 0
    ∧ extract_views_per_follower ⟨0, 0, 6, 2⟩ = 3 := by
  refine ⟨views_per_follower_amended.1 ⟨0, 0, 1000, 500⟩,
    views_per_follower_amended.2.1 ⟨0, 0, 5, 0⟩ rfl, ?_⟩
  have h := views_per_follower_amended.2.2 ⟨0, 0, 6, 2⟩ (by norm_num)
  rw [h]
  norm_num

/-! ### Claim C9: idempotence of rank and filter -/

/-- C9: `rankAndFilter` is idempotent — re-ranking its own output with the
same thresholds and the same `topN` returns the output unchanged. -/
theorem rankAndFilter_idem (records : List ReelData) (minEng minRatio : ℚ)
    (topN : Nat) :
    rankAndFilter (rankAndFilter records minEng minRatio topN) minEng minRatio topN
      = rankAndFilter records minEng minRatio topN := by
  simp only [rankAndFilter]
  exact take_sort_filter_idem scoreGe (keepReel minEng minRatio) topN records

/-! ### Claim C10: implicit truthiness gate -/

/-- C10: every record returned by the rank-and-filter path has strictly
positive like and view counts, for every pair of thresholds and every `topN`:
the truthiness gate excludes records with `like_count == 0` or
`view_count == 0` before any threshold comparison. -/
theorem rankAndFilter_like_view_pos (records : List ReelData) (minEng minRatio : ℚ)
    (topN : Nat) (r : ReelData) (hr : r ∈ rankAndFilter records minEng minRatio topN) :
    0 < r.like_count ∧ 0 < r.view_count := by
  have h2 : r ∈ records.filter (keepReel minEng minRatio) :=
    (List.perm_insertionSort scoreGe _).mem_iff.mp ((List.take_sublist _ _).subset hr)
  have h3 := List.of_mem_filter h2
  simp only [keepReel, Bool.and_eq_true, bne_iff_ne, ne_eq, decide_eq_true_eq] at h3
  exact ⟨Nat.pos_of_ne_zero h3.1.1.1, Nat.pos_of_ne_zero h3.1.1.2⟩

/-- Witness for `rankAndFilter_like_view_pos` on a concrete passing record. -/
theorem rankAndFilter_like_view_pos_witness :
    0 < (⟨4, 1, 20, 2⟩ : ReelData).like_count
    ∧ 0 < (⟨4, 1, 20, 2⟩ : ReelData).view_count := by
  have hout : rankAndFilter [⟨4, 1, 20, 2⟩] 0 0 10 = [⟨4, 1, 20, 2⟩] := by
    norm_num [rankAndFilter, keepReel, engagement_rate, gate_views_per_follower,
      List.insertionSort]
  exact rankAndFilter_like_view_pos [⟨4, 1, 20, 2⟩] 0 0 10 ⟨4, 1, 20, 2⟩
    (by rw [hout]; exact List.mem_cons_self _ _)

/-! ### Claim C1: match score and interest membership -/

/-- C1 counterexample: for the target `{"interest": "beauty"}` and a record
whose profile's `interests` list contains "beauty", the claimed membership
rule gives match score 1 (so the record should be kept), but
`get_reels_by_audience` computes match score 0 — the profile has no
`interest` key and no membership check exists — and excludes the record. -/
theorem match_score_interest_cex :
    match_score_spec [("interest", "beauty")] interestsProfile = 1
    ∧ match_score [("interest", "beauty")] interestsProfile = 0
    ∧ get_reels_by_audience [("interest", "beauty")] [reelC] 10 = [] := by
  exact ⟨by decide, by decide, by decide⟩

/-- C1 amended: the match score counts the target keys that are present in the
record's profile with a value equal (Python `==`) to the target value; a
target key whose profile entry is absent or list-valued never matches — in
particular a target `interest` key never matches, since profiles store the
list-valued key `interests` — and only records with a positive match score
are kept. -/
theorem match_score_amended :
    (∀ (tgt : List (String × String)) (a : AudienceJson),
        (∀ kv ∈ tgt, jlookup a kv.1 = none ∨ ∃ l, jlookup a kv.1 = some (JVal.jarr l)) →
          match_score tgt a = 0)
    ∧ (∀ (k v : String) (a : AudienceJson), jlookup a k = some (JVal.jstr v) →
        match_score [(k, v)] a = 1)
    ∧ (∀ (tgt : List (String × String)) (pool : List Reel) (lim : Nat)
        (p : Reel × Nat), p ∈ get_reels_by_audience tgt pool lim → 0 < p.2) := by
  refine ⟨?_, ?_, ?_⟩
  · intro tgt a h
    rw [match_score, List.countP_eq_zero]
    intro kv hkv
    rcases h kv hkv with hnone | ⟨l, harr⟩
    · simp [hnone]
    · simp [harr]
  · intro k v a h
    simp [match_score, List.countP_cons, h]
  · intro tgt pool lim p hp
    simp only [get_reels_by_audience] at hp
    have h1 : p ∈ pool.filterMap (fun r =>
        match r.audience with
        | none => none
        | some a =>
          let ms := match_score tgt a
          if 0 < ms then some (r, ms) else none) :=
      (List.perm_insertionSort msGe _).mem_iff.mp ((List.take_sublist _ _).subset hp)
    rw [List.mem_filterMap] at h1
    obtain ⟨r, _, hfr⟩ := h1
    cases ha : r.audience with
    | none =>
      rw [ha] at hfr
      exact absurd hfr (by simp)
    | some a =>
      rw [ha] at hfr
      dsimp only at hfr
      by_cases hms : 0 < match_score tgt a
      · rw [if_pos hms] at hfr
        obtain rfl := Option.some.inj hfr
        exact hms
      · rw [if_neg hms] at hfr
        exact absurd hfr (by simp)

/-- Witness for `match_score_amended`: a list-valued `interests` entry never
matches; an exactly equal `age` entry matches once; a kept pair in a concrete
matching query has a positive score. -/
theorem match_score_amended_witness :
    match_score [("interest", "beauty")] [("interests", JVal.jarr ["beauty"])] = 0
    ∧ match_score [("age", "18-24")] [("age", JVal.jstr "18-24")] = 1
    ∧ 0 < ((reelA, 1) : Reel × Nat).2 := by
  refine ⟨match_score_amended.1 _ _ ?_, match_score_amended.2.1 "age" "18-24" _ rfl,
    match_score_amended.2.2 [("age", "18-24")] [reelA] 10 (reelA, 1) (by decide)⟩
  intro kv hkv
  rw [List.mem_singleton] at hkv
  subst hkv
  exact Or.inl (by decide)

/-! ### Claim C2: ranking of matched records -/

/-- C2 counterexample: records A and B both match the target on `age` with
match score 1, and B's engagement score (30) strictly exceeds A's (12), yet
`get_reels_by_audience` returns A before B — the sort is stable on the
original pool order and never consults the engagement score — so the claimed
result order [B, A] is wrong. -/
theorem get_reels_by_audience_order_cex :
    get_reels_by_audience [("age", "18-24")] [reelA, reelB] 10
      = [(reelA, 1), (reelB, 1)]
    ∧ engagement_rate ⟨reelB.like_count, reelB.comment_count, reelB.view_count, 1000⟩ = 30
    ∧ engagement_rate ⟨reelA.like_count, reelA.comment_count, reelA.view_count, 1000⟩ = 12
    ∧ [(reelA, 1), (reelB, 1)] ≠ [(reelB, 1), (reelA, 1)] := by
  refine ⟨by decide, by norm_num [engagement_rate, reelB],
    by norm_num [engagement_rate, reelA], by decide⟩

/-- C2 amended: `get_reels_by_audience` sorts the kept records descending by
match score with ties broken by original pool order only (the engagement score
is not consulted) and truncates to the caller-supplied limit (the source
default is 10); in the claimed scenario both records tie at match score 1 and
the result keeps the pool order [A, B]. -/
theorem get_reels_by_audience_amended :
    (∀ (tgt : List (String × String)) (pool : List Reel) (lim : Nat),
        List.Sorted msGe (get_reels_by_audience tgt pool lim))
    ∧ (∀ (tgt : List (String × String)) (pool : List Reel) (lim : Nat),
        (get_reels_by_audience tgt pool lim).length ≤ lim)
    ∧ get_reels_by_audience [("age", "18-24")] [reelA, reelB] 10
        = [(reelA, 1), (reelB, 1)] := by
  refine ⟨?_, ?_, by decide⟩
  · intro tgt pool lim
    simp only [get_reels_by_audience]
    exact List.Pairwise.sublist (List.take_sublist _ _) (List.sorted_insertionSort msGe _)
  · intro tgt pool lim
    simp only [get_reels_by_audience]
    rw [List.length_take]
    exact Nat.min_le_left _ _

/-! ### Claim C8: empty target -/

/-- C8 counterexample: with an empty target and a non-empty pool whose only
record carries a profile, `get_reels_by_audience` returns the empty list, not
the full pool with match score 0 as the claim requires. -/
theorem empty_target_cex :
    get_reels_by_audience [] [reelA] 10 = []
    ∧ reelA.audience ≠ none
    ∧ ([] : List (Reel × Nat)) ≠ [(reelA, 0)] := by
  exact ⟨by decide, by decide, by decide⟩

/-- C8 amended: for an empty target every record's match score is 0, so the
strict `match_score > 0` filter excludes every record and
`get_reels_by_audience` returns the empty list for every pool and limit. -/
theorem empty_target_returns_empty (pool : List Reel) (lim : Nat) :
    get_reels_by_audience [] pool lim = [] := by
  have hfm : pool.filterMap (fun r =>
      match r.audience with
      | none => none
      | some a =>
        let ms := match_score [] a
        if 0 < ms then some (r, ms) else none) = [] := by
    induction pool with
    | nil => rfl
    | cons r t ih =>
      rw [List.filterMap_cons]
      cases r.audience with
      | none => exact ih
      | some a => simpa [match_score] using ih
  simp only [get_reels_by_audience, hfm]
  simp

/-- Witness for `empty_target_returns_empty` at a concrete non-empty pool. -/
theorem empty_target_returns_empty_witness :
    get_reels_by_audience [] [reelA, reelB] 3 = [] :=
  empty_target_returns_empty [reelA, reelB] 3
